import Mathlib

/-!
Shallow embedding of the `bjaus/vault` Go package: the resolution/caching
engine in `vault.go` (Get / Set / Refresh / shouldAutoRefresh / expired),
the construction options in `options.go`, and the in-memory backend in
`memory.go`.

Modelling conventions:
* Go `time.Time` values are modelled as `Int` instants; the Go zero time
  (`IsZero`) is the instant `0`, and `time.Since(t)` at instant `now` is
  `now - t`.  `time.Duration` is an `Int`.
* The engine's `lastRefresh time.Time` field is an `Option Int`
  (`none` = the zero time, i.e. no refresh has ever completed).
* Go errors are the inductive `VErr`: the `ErrNotFound` sentinel, an
  arbitrary leaf error carrying a message, and `fmt.Errorf("...: %w", e)`
  wrapping.  `errors.Is(err, ErrNotFound)` is `VErr.isNotFound`, which
  unwraps through `wrapped` exactly as Go's `errors.Is` does.
* A `Store` over a state type `σ` packages the four methods of the Go
  `Store` interface as pure state-passing functions; fallible calls
  return `Except VErr`.
* A `Source`'s `Fetch` is modelled by the result it yields during the
  refresh under consideration: `Except VErr (List Entry)`.
* Each engine operation takes the current instant `now : Int` explicitly
  in place of calling `time.Now()` / `time.Since`.
-/

namespace VaultModel

/-- Entry is a configuration or secret value (struct `Entry` in `vault.go`). -/
structure Entry where
  key : String
  value : String
  createdAt : Int
  source : String
deriving Repr, DecidableEq

/-- Go error values as seen by the engine: the `ErrNotFound` sentinel, an
arbitrary leaf error, and `%w` wrapping with a context message. -/
inductive VErr where
  | notFound : VErr
  | err : String → VErr
  | wrapped : String → VErr → VErr
deriving Repr, DecidableEq

/-- Go `errors.Is(e, ErrNotFound)`: true on the sentinel itself and on any
chain of wrappings around it. -/
def VErr.isNotFound : VErr → Bool
  | .notFound => true
  | .err _ => false
  | .wrapped _ e => e.isNotFound

/-- True exactly when the error is a `fmt.Errorf("...: %w", ...)` wrapping
(as opposed to a verbatim, unwrapped error value). -/
def VErr.isWrapped : VErr → Bool
  | .wrapped _ _ => true
  | _ => false

instance {ε α : Type} [DecidableEq ε] [DecidableEq α] :
    DecidableEq (Except ε α) := fun a b =>
  match a, b with
  | .ok x, .ok y => if h : x = y then .isTrue (by rw [h]) else .isFalse (by simp [h])
  | .error x, .error y => if h : x = y then .isTrue (by rw [h]) else .isFalse (by simp [h])
  | .ok _, .error _ => .isFalse (by simp)
  | .error _, .ok _ => .isFalse (by simp)

/-- The Go `Store` interface over a backend-state type `σ`: `Get`, `Set`
and `Delete`, as pure state-passing functions.  (`List`, a verbatim
delegate used by no resolution path, is outside the modelled fragment.) -/
structure Store (σ : Type) where
  get : σ → String → Except VErr Entry
  set : σ → Entry → Except VErr σ
  delete : σ → String → Except VErr σ

/-! ## The in-memory backend (`memory.go`) -/

/-- The shared backing data of a `Memory` store (struct `memoryState`):
the `entries map[string]Entry`. -/
structure MemState where
  entries : String → Option Entry

/-- The empty map created by `NewMemory`. -/
def MemState.empty : MemState := ⟨fun _ => none⟩

/-- A `Memory` handle: the namespace key prefix (field `prefix` in Go;
`""` for the unscoped store returned by `NewMemory`).  The shared
`memoryState` is passed explicitly to each operation. -/
structure Memory where
  pfx : String
deriving Repr, DecidableEq

/-- The unscoped handle produced by `NewMemory` (empty prefix). -/
def Memory.unscoped : Memory := ⟨""⟩

/-- Method `Memory.WithNamespace`: a handle over the same backing data
whose prefix is `ns + "/"` (the receiver's own prefix is discarded). -/
def Memory.withNamespace (_m : Memory) (ns : String) : Memory :=
  ⟨ns ++ "/"⟩

/-- Method `Memory.Get`: look up `m.prefix + key`; absent keys yield
`ErrNotFound`. -/
def Memory.get (m : Memory) (st : MemState) (key : String) : Except VErr Entry :=
  match st.entries (m.pfx ++ key) with
  | some e => .ok e
  | none => .error .notFound

/-- Method `Memory.Set`: store the entry at `m.prefix + entry.Key`. -/
def Memory.set (m : Memory) (st : MemState) (e : Entry) : MemState :=
  ⟨fun k => if k = m.pfx ++ e.key then some e else st.entries k⟩

/-- Method `Memory.Delete`: remove the key `m.prefix + key`. -/
def Memory.delete (m : Memory) (st : MemState) (key : String) : MemState :=
  ⟨fun k => if k = m.pfx ++ key then none else st.entries k⟩

/-- The `Memory` handle packaged as a `Store MemState` (its `Set` and
`Delete` always return a nil error, as in `memory.go`). -/
def Memory.store (m : Memory) : Store MemState where
  get := fun st key => m.get st key
  set := fun st e => .ok (m.set st e)
  delete := fun st key => .ok (m.delete st key)

/-! ## The resolution engine (`vault.go`) -/

/-- The immutable configuration of a `vault` value built by `New`
(`options.go`): the backend, the ordered source list (each source given
by the fetch result it yields), and the TTL. -/
structure Vault (σ : Type) where
  ops : Store σ
  sources : List (Except VErr (List Entry))
  ttl : Int

/-- The engine's mutable state: the backend's state together with the
`lastRefresh` timestamp (`none` = Go's zero time: no refresh has ever
completed). -/
structure VaultState (σ : Type) where
  store : σ
  lastRefresh : Option Int

variable {σ : Type}

/-- Method `vault.expired`: with `ttl <= 0` nothing expires; otherwise an
entry is expired when `time.Since(e.CreatedAt) > ttl`. -/
def Vault.expired (v : Vault σ) (now : Int) (e : Entry) : Bool :=
  if v.ttl ≤ 0 then false
  else decide (now - e.createdAt > v.ttl)

/-- Method `vault.shouldAutoRefresh`: deny with no sources; permit when
`lastRefresh` is the zero time; with `ttl > 0` permit iff
`time.Since(lastRefresh) > ttl`; otherwise deny. -/
def Vault.shouldAutoRefresh (v : Vault σ) (s : VaultState σ) (now : Int) : Bool :=
  if v.sources.length = 0 then false
  else
    match s.lastRefresh with
    | none => true
    | some t => if v.ttl > 0 then decide (now - t > v.ttl) else false

/-- The inner loop of `vault.Refresh` over one source's fetched entries:
each entry has `CreatedAt` stamped to `now` and is written to the
backend; a failing write aborts with the error wrapped as
`vault: refresh: set <key>: ...`, keeping the backend state already
reached. -/
def setAll (ops : Store σ) (now : Int) (st : σ) :
    List Entry → σ × Option VErr
  | [] => (st, none)
  | e :: rest =>
    match ops.set st { e with createdAt := now } with
    | .error serr =>
      (st, some (.wrapped ("vault: refresh: set " ++ e.key) serr))
    | .ok st' => setAll ops now st' rest

/-- The outer loop of `vault.Refresh` over the sources, in registration
order: a failing fetch aborts with the error wrapped as
`vault: refresh: ...`; a failing write aborts with `setAll`'s error.
Either way the backend state already reached is kept. -/
def refreshLoop (ops : Store σ) (now : Int) (st : σ) :
    List (Except VErr (List Entry)) → σ × Option VErr
  | [] => (st, none)
  | src :: rest =>
    match src with
    | .error ferr => (st, some (.wrapped "vault: refresh" ferr))
    | .ok entries =>
      match setAll ops now st entries with
      | (st', none) => refreshLoop ops now st' rest
      | (st', some e) => (st', some e)

/-- Method `vault.Refresh`: run the fetch/write loop; only when every
source was fetched and every entry written successfully is
`lastRefresh` advanced to the refresh start time `now`; on failure
`lastRefresh` is left unchanged and the wrapped error is returned. -/
def Vault.refresh (v : Vault σ) (s : VaultState σ) (now : Int) :
    VaultState σ × Option VErr :=
  match refreshLoop v.ops now s.store v.sources with
  | (st', none) => (⟨st', some now⟩, none)
  | (st', some e) => (⟨st', s.lastRefresh⟩, some e)

/-- The miss branch of `vault.Get` (entry absent or expired): if the
throttle gate denies, return `ErrNotFound`; otherwise run `Refresh`,
propagate its error if it fails, and re-query the backend once. -/
def Vault.getMiss (v : Vault σ) (s : VaultState σ) (now : Int) (key : String) :
    VaultState σ × Except VErr Entry :=
  if v.shouldAutoRefresh s now then
    match v.refresh s now with
    | (s', none) => (s', v.ops.get s'.store key)
    | (s', some rerr) => (s', .error rerr)
  else (s, .error .notFound)

/-- Method `vault.Get`: query the backend; a present, unexpired entry is
returned immediately.  A `NotFound` error or an expired entry is a miss
handled by `getMiss`; any other backend error is returned verbatim. -/
def Vault.get (v : Vault σ) (s : VaultState σ) (now : Int) (key : String) :
    VaultState σ × Except VErr Entry :=
  match v.ops.get s.store key with
  | .ok e => if v.expired now e then v.getMiss s now key else (s, .ok e)
  | .error e => if e.isNotFound then v.getMiss s now key else (s, .error e)

/-- The defaulting performed by `vault.Set` before delegating to the
backend: a zero `CreatedAt` becomes the current time and an empty
`Source` becomes `"manual"`. -/
def normalizeSet (now : Int) (e : Entry) : Entry :=
  let e1 := if e.createdAt = 0 then { e with createdAt := now } else e
  if e1.source = "" then { e1 with source := "manual" } else e1

/-- Method `vault.Set`: apply the `normalizeSet` defaulting and delegate
to the backend's `Set`. -/
def Vault.setOp (v : Vault σ) (s : VaultState σ) (now : Int) (e : Entry) :
    VaultState σ × Option VErr :=
  match v.ops.set s.store (normalizeSet now e) with
  | .ok st' => (⟨st', s.lastRefresh⟩, none)
  | .error err => (s, some err)

/-! ## Claims about the throttle gate and freshness classification -/

/-- C1: the throttle gate `shouldAutoRefresh` is the pure predicate that
denies with zero registered sources; permits when no refresh has ever
completed; denies when TTL is zero and a refresh has completed; and with
TTL > 0 after a completed refresh permits iff the elapsed time since
`lastRefresh` exceeds the TTL. -/
theorem C1_shouldAutoRefresh_gate (v : Vault σ) (s : VaultState σ) (now : Int) :
    (v.sources = [] → v.shouldAutoRefresh s now = false) ∧
    (v.sources ≠ [] → s.lastRefresh = none → v.shouldAutoRefresh s now = true) ∧
    (v.sources ≠ [] → v.ttl = 0 → ∀ t, s.lastRefresh = some t →
      v.shouldAutoRefresh s now = false) ∧
    (v.sources ≠ [] → 0 < v.ttl → ∀ t, s.lastRefresh = some t →
      (v.shouldAutoRefresh s now = true ↔ v.ttl < now - t)) := by
  refine ⟨fun h => ?_, fun h h0 => ?_, fun h h0 t ht => ?_, fun h h0 t ht => ?_⟩ <;>
    simp_all [Vault.shouldAutoRefresh, List.length_eq_zero]

/-- C1 witness: with one source, TTL = 2 and a last refresh at instant 0,
the gate read at instant 5 permits (elapsed 5 exceeds 2). -/
theorem C1_shouldAutoRefresh_gate_witness :
    Vault.shouldAutoRefresh
      (⟨Memory.unscoped.store, [Except.ok []], 2⟩ : Vault MemState)
      ⟨MemState.empty, some 0⟩ 5 = true :=
  ((C1_shouldAutoRefresh_gate ⟨Memory.unscoped.store, [Except.ok []], 2⟩
      ⟨MemState.empty, some 0⟩ 5).2.2.2
    (by simp) (by decide) 0 rfl).mpr (by decide)

/-- C2: a stored entry is classified Fresh (not expired) exactly when the
TTL is zero or the elapsed time since its `createdAt` is at most the
TTL; a Fresh entry is returned by `Get` immediately with the state
untouched (no refresh path taken); and with TTL = 0 every stored entry
is Fresh regardless of age. -/
theorem C2_fresh_classification (v : Vault σ) (s : VaultState σ) (now : Int)
    (key : String) (e : Entry) (httl : 0 ≤ v.ttl)
    (hget : v.ops.get s.store key = .ok e) :
    (v.expired now e = false ↔ (v.ttl = 0 ∨ now - e.createdAt ≤ v.ttl)) ∧
    (v.expired now e = false → v.get s now key = (s, .ok e)) ∧
    (v.ttl = 0 → v.expired now e = false) := by
  refine ⟨?_, fun hf => ?_, fun h0 => ?_⟩
  · simp only [Vault.expired]
    split <;> simp <;> omega
  · simp [Vault.get, hget, hf]
  · simp [Vault.expired, h0]

/-- C2 witness: an engine with TTL = 10 over a memory store holding an
entry written at instant 0, read at instant 7, classifies it Fresh and
returns it unchanged. -/
theorem C2_fresh_classification_witness :
    ((⟨Memory.unscoped.store, [], 10⟩ : Vault MemState).expired 7
        ⟨"k", "v", 0, "manual"⟩ = false ↔
      ((10 : Int) = 0 ∨ (7 : Int) - 0 ≤ 10)) ∧
    ((⟨Memory.unscoped.store, [], 10⟩ : Vault MemState).expired 7
        ⟨"k", "v", 0, "manual"⟩ = false →
      (⟨Memory.unscoped.store, [], 10⟩ : Vault MemState).get
        ⟨Memory.unscoped.set MemState.empty ⟨"k", "v", 0, "manual"⟩, none⟩ 7 "k" =
        (⟨Memory.unscoped.set MemState.empty ⟨"k", "v", 0, "manual"⟩, none⟩,
          .ok ⟨"k", "v", 0, "manual"⟩)) ∧
    ((10 : Int) = 0 →
      (⟨Memory.unscoped.store, [], 10⟩ : Vault MemState).expired 7
        ⟨"k", "v", 0, "manual"⟩ = false) :=
  C2_fresh_classification ⟨Memory.unscoped.store, [], 10⟩
    ⟨Memory.unscoped.set MemState.empty ⟨"k", "v", 0, "manual"⟩, none⟩ 7 "k"
    ⟨"k", "v", 0, "manual"⟩ (by decide) (by decide)

/-- C7: `Set`'s defaulting: a zero `createdAt` becomes the current
(non-zero) time and an empty `source` becomes `"manual"`; explicitly
supplied values are kept exactly; the key and value fields are passed
to the backend unchanged. -/
theorem C7_set_defaults (now : Int) (e : Entry) (hnow : now ≠ 0) :
    (e.createdAt = 0 →
      (normalizeSet now e).createdAt = now ∧ (normalizeSet now e).createdAt ≠ 0) ∧
    (e.source = "" → (normalizeSet now e).source = "manual") ∧
    (e.createdAt ≠ 0 → (normalizeSet now e).createdAt = e.createdAt) ∧
    (e.source ≠ "" → (normalizeSet now e).source = e.source) ∧
    (normalizeSet now e).key = e.key ∧ (normalizeSet now e).value = e.value := by
  simp only [normalizeSet]
  refine ⟨fun hc => ?_, fun hs => ?_, fun hc => ?_, fun hs => ?_, ?_, ?_⟩ <;>
    split <;> simp_all <;> split <;> simp_all

/-- C7 witness: at instant 3, an entry with zero `createdAt` and empty
`source` is stored with `createdAt` 3 and source `"manual"`. -/
theorem C7_set_defaults_witness :
    (((⟨"k", "v", 0, ""⟩ : Entry).createdAt = 0 →
      (normalizeSet 3 ⟨"k", "v", 0, ""⟩).createdAt = 3 ∧
      (normalizeSet 3 ⟨"k", "v", 0, ""⟩).createdAt ≠ 0) ∧
    ((⟨"k", "v", 0, ""⟩ : Entry).source = "" →
      (normalizeSet 3 ⟨"k", "v", 0, ""⟩).source = "manual") ∧
    ((⟨"k", "v", 0, ""⟩ : Entry).createdAt ≠ 0 →
      (normalizeSet 3 ⟨"k", "v", 0, ""⟩).createdAt =
        (⟨"k", "v", 0, ""⟩ : Entry).createdAt) ∧
    ((⟨"k", "v", 0, ""⟩ : Entry).source ≠ "" →
      (normalizeSet 3 ⟨"k", "v", 0, ""⟩).source =
        (⟨"k", "v", 0, ""⟩ : Entry).source) ∧
    (normalizeSet 3 ⟨"k", "v", 0, ""⟩).key = (⟨"k", "v", 0, ""⟩ : Entry).key ∧
    (normalizeSet 3 ⟨"k", "v", 0, ""⟩).value = (⟨"k", "v", 0, ""⟩ : Entry).value) :=
  C7_set_defaults 3 ⟨"k", "v", 0, ""⟩ (by decide)

/-! ## Claims about the miss path of Get -/

/-- C4: when the backend lookup misses (a `NotFound`-chained error or a
stale entry) and the throttle gate denies, `Get` returns the `NotFound`
sentinel with the state untouched — never the stale value. -/
theorem C4_denied_gate_yields_notFound (v : Vault σ) (s : VaultState σ)
    (now : Int) (key : String)
    (hmiss : (∃ err, v.ops.get s.store key = .error err ∧ err.isNotFound = true) ∨
             (∃ e, v.ops.get s.store key = .ok e ∧ v.expired now e = true))
    (hdeny : v.shouldAutoRefresh s now = false) :
    v.get s now key = (s, .error .notFound) := by
  rcases hmiss with ⟨err, hget, hnf⟩ | ⟨e, hget, hexp⟩
  · simp [Vault.get, hget, hnf, Vault.getMiss, hdeny]
  · simp [Vault.get, hget, hexp, Vault.getMiss, hdeny]

/-- C4 witness: an engine with zero sources over a memory store holding a
stale entry (TTL 1, written at 0, read at 50) returns `NotFound`, not
the stale value. -/
theorem C4_denied_gate_yields_notFound_witness :
    (⟨Memory.unscoped.store, [], 1⟩ : Vault MemState).get
      ⟨Memory.unscoped.set MemState.empty ⟨"k", "old", 0, "src"⟩, none⟩ 50 "k" =
      (⟨Memory.unscoped.set MemState.empty ⟨"k", "old", 0, "src"⟩, none⟩,
        .error .notFound) :=
  C4_denied_gate_yields_notFound ⟨Memory.unscoped.store, [], 1⟩
    ⟨Memory.unscoped.set MemState.empty ⟨"k", "old", 0, "src"⟩, none⟩ 50 "k"
    (Or.inr ⟨⟨"k", "old", 0, "src"⟩, by decide, by decide⟩) (by decide)

/-- A backend whose `get` always fails with a non-`NotFound` leaf error
(used to exhibit how `Get` surfaces backend errors). -/
def failingStore : Store Unit where
  get := fun _ _ => .error (.err "disk failure")
  set := fun st _ => .ok st
  delete := fun st _ => .ok st

/-- C5 counterexample: a backend `get` failure surfaces from `Get` as the
verbatim backend error — a bare leaf, not an error wrapped with
operation and key context, contrary to the claim's wording. -/
theorem C5_backend_error_not_wrapped_counterexample :
    ((⟨failingStore, [], 0⟩ : Vault Unit).get ⟨(), none⟩ 0 "k").2 =
      .error (.err "disk failure") ∧
    VErr.isWrapped (.err "disk failure") = false := by
  constructor
  · rfl
  · rfl

/-- C5 amended: when the backend's `get` returns an error other than
`NotFound`, `Get` surfaces exactly that error to the caller, verbatim
and unwrapped (so the underlying error is trivially identifiable). -/
theorem C5_backend_error_surfaced_verbatim (v : Vault σ) (s : VaultState σ)
    (now : Int) (key : String) (err : VErr)
    (herr : v.ops.get s.store key = .error err)
    (hnf : err.isNotFound = false) :
    v.get s now key = (s, .error err) := by
  simp [Vault.get, herr, hnf]

/-- C5 amended witness: the failing backend's leaf error comes back from
`Get` exactly as the backend produced it. -/
theorem C5_backend_error_surfaced_verbatim_witness :
    (⟨failingStore, [], 0⟩ : Vault Unit).get ⟨(), none⟩ 0 "k" =
      (⟨(), none⟩, .error (.err "disk failure")) :=
  C5_backend_error_surfaced_verbatim ⟨failingStore, [], 0⟩ ⟨(), none⟩ 0 "k"
    (.err "disk failure") rfl rfl

/-- C9: a reachable state in which `Get` returns a stale entry with a nil
error: TTL 10, an entry for `"k"` created at instant 0 and read at
instant 100 (stale), gate permitting (no refresh ever completed, one
source), and a successful refresh whose source supplies no entry for
`"k"` — the post-refresh lookup returns the old stale entry as a
success, because that lookup does not re-apply the freshness check. -/
theorem C9_stale_served_after_refresh :
    ((⟨Memory.unscoped.store, [Except.ok []], 10⟩ : Vault MemState).get
        ⟨Memory.unscoped.set MemState.empty ⟨"k", "old", 0, "src"⟩, none⟩
        100 "k").2 = .ok ⟨"k", "old", 0, "src"⟩ ∧
    (⟨Memory.unscoped.store, [Except.ok []], 10⟩ : Vault MemState).expired 100
      ⟨"k", "old", 0, "src"⟩ = true ∧
    ((⟨Memory.unscoped.store, [Except.ok []], 10⟩ : Vault MemState).get
        ⟨Memory.unscoped.set MemState.empty ⟨"k", "old", 0, "src"⟩, none⟩
        100 "k").1.lastRefresh = some 100 := by
  refine ⟨?_, ?_, ?_⟩ <;> rfl

/-- C10: memory namespace scoping is plain `"/"`-prefixing, so isolation
fails for keys containing the separator: an unscoped write of key
`"ns/k"` is read back by the `"ns"`-scoped view under key `"k"`, and
namespace `"a"` with key `"b/c"` aliases namespace `"a/b"` with key
`"c"` (same physical slot). -/
theorem C10_separator_keys_break_isolation :
    (Memory.unscoped.withNamespace "ns").get
        (Memory.unscoped.set MemState.empty ⟨"ns/k", "v", 0, "src"⟩) "k" =
      .ok ⟨"ns/k", "v", 0, "src"⟩ ∧
    (Memory.unscoped.withNamespace "a/b").get
        ((Memory.unscoped.withNamespace "a").set MemState.empty
          ⟨"b/c", "w", 0, "src"⟩) "c" =
      .ok ⟨"b/c", "w", 0, "src"⟩ := by
  constructor
  · rfl
  · rfl

/-! ## Claims about Refresh -/

/-- Any error produced by the write loop is a wrapped error. -/
theorem setAll_error_isWrapped (ops : Store σ) (now : Int) :
    ∀ (l : List Entry) (st st' : σ) (e : VErr),
      setAll ops now st l = (st', some e) → e.isWrapped = true := by
  intro l
  induction l with
  | nil => intro st st' e h; simp [setAll] at h
  | cons x rest ih =>
    intro st st' e h
    simp only [setAll] at h
    rcases hset : ops.set st { x with createdAt := now } with serr | st1 <;>
      rw [hset] at h
    · injection h with h1 h2
      injection h2 with h3
      rw [← h3]
      rfl
    · exact ih _ _ _ h

/-- Any error produced by the fetch/write loop is a wrapped error. -/
theorem refreshLoop_error_isWrapped (ops : Store σ) (now : Int) :
    ∀ (srcs : List (Except VErr (List Entry))) (st st' : σ) (e : VErr),
      refreshLoop ops now st srcs = (st', some e) → e.isWrapped = true := by
  intro srcs
  induction srcs with
  | nil => intro st st' e h; simp [refreshLoop] at h
  | cons src rest ih =>
    intro st st' e h
    rcases src with ferr | entries
    · simp only [refreshLoop] at h
      injection h with h1 h2
      injection h2 with h3
      rw [← h3]
      rfl
    · simp only [refreshLoop] at h
      rcases hsa : setAll ops now st entries with ⟨st1, oe⟩
      rw [hsa] at h
      cases oe with
      | none => exact ih _ _ _ h
      | some e1 =>
        injection h with h1 h2
        injection h2 with h3
        rw [← h3]
        exact setAll_error_isWrapped ops now entries st st1 e1 hsa

/-- If the fetch/write loop already fails on a prefix of the source list,
appending further sources changes nothing: the loop stops at the
failure, keeping the backend state reached there. -/
theorem refreshLoop_failed_on_prefix (ops : Store σ) (now : Int) :
    ∀ (pre post : List (Except VErr (List Entry))) (st st1 : σ) (e1 : VErr),
      refreshLoop ops now st pre = (st1, some e1) →
      refreshLoop ops now st (pre ++ post) = (st1, some e1) := by
  intro pre
  induction pre with
  | nil => intro post st st1 e1 h; simp [refreshLoop] at h
  | cons src rest ih =>
    intro post st st1 e1 h
    rcases src with ferr | entries
    · simpa only [List.cons_append, refreshLoop] using h
    · simp only [List.cons_append, refreshLoop] at h ⊢
      rcases hsa : setAll ops now st entries with ⟨st2, oe⟩
      rw [hsa] at h
      cases oe with
      | none => exact ih post _ _ _ h
      | some e2 => exact h

/-- C3: `lastRefresh` advances (to the refresh start time) exactly on a
fully successful `Refresh`; on any failure the returned error is
wrapped, `lastRefresh` is unchanged, and the backend keeps the state
reached by the loop (earlier writes committed, no rollback).  Moreover,
if the loop fails within a prefix of the registered sources, the whole
`Refresh` equals the run over that prefix alone — sources after the
failure are never consulted. -/
theorem C3_refresh_commit_semantics (v : Vault σ) (s : VaultState σ) (now : Int) :
    ((v.refresh s now).2 = none → (v.refresh s now).1.lastRefresh = some now) ∧
    (∀ e, (v.refresh s now).2 = some e →
      e.isWrapped = true ∧
      (v.refresh s now).1.lastRefresh = s.lastRefresh ∧
      (v.refresh s now).1.store = (refreshLoop v.ops now s.store v.sources).1) ∧
    (∀ pre post st1 e1, v.sources = pre ++ post →
      refreshLoop v.ops now s.store pre = (st1, some e1) →
      v.refresh s now = (⟨st1, s.lastRefresh⟩, some e1)) := by
  refine ⟨fun h => ?_, fun e h => ?_, fun pre post st1 e1 hsrc hpre => ?_⟩
  · unfold Vault.refresh at h ⊢
    rcases hrl : refreshLoop v.ops now s.store v.sources with ⟨st', oe⟩
    rw [hrl] at h
    cases oe with
    | none => rfl
    | some e2 => exact Option.noConfusion h
  · unfold Vault.refresh at h ⊢
    rcases hrl : refreshLoop v.ops now s.store v.sources with ⟨st', oe⟩
    rw [hrl] at h
    cases oe with
    | none => exact Option.noConfusion h
    | some e2 =>
      have h' : some e2 = some e := h
      injection h' with h3
      rw [← h3]
      exact ⟨refreshLoop_error_isWrapped v.ops now v.sources s.store st' e2 hrl,
        rfl, rfl⟩
  · have hall := refreshLoop_failed_on_prefix v.ops now pre post s.store st1 e1 hpre
    rw [← hsrc] at hall
    unfold Vault.refresh
    rw [hall]

/-- C3 witness: with sources `[ok [a], error boom]` the refresh fails on
the second source: the first source's entry is committed (stamped with
the refresh time 42), `lastRefresh` stays at 7, and the error is the
fetch error wrapped with refresh context. -/
theorem C3_refresh_commit_semantics_witness :
    (⟨Memory.unscoped.store,
        [.ok [⟨"a", "1", 5, "s"⟩], .error (.err "boom")], 0⟩ :
      Vault MemState).refresh ⟨MemState.empty, some 7⟩ 42 =
    (⟨Memory.unscoped.set MemState.empty ⟨"a", "1", 42, "s"⟩, some 7⟩,
      some (.wrapped "vault: refresh" (.err "boom"))) :=
  (C3_refresh_commit_semantics
      (⟨Memory.unscoped.store,
          [.ok [⟨"a", "1", 5, "s"⟩], .error (.err "boom")], 0⟩ : Vault MemState)
      ⟨MemState.empty, some 7⟩ 42).2.2
    [.ok [⟨"a", "1", 5, "s"⟩], .error (.err "boom")] []
    (Memory.unscoped.set MemState.empty ⟨"a", "1", 42, "s"⟩)
    (.wrapped "vault: refresh" (.err "boom"))
    (by simp) rfl

/-- C6: a refresh over sources `[A, B]` that both supply key `k` succeeds,
advances `lastRefresh`, and leaves the backend holding B's entry for
`k` — B was consulted after A and overwrote A's write — with its
`createdAt` overwritten by the refresh time (whatever timestamps the
sources supplied). -/
theorem C6_refresh_order_overwrite (st : MemState) (lr : Option Int)
    (now ttl : Int) (ea eb : Entry) (k : String)
    (hka : ea.key = k) (hkb : eb.key = k) :
    ((⟨Memory.unscoped.store, [.ok [ea], .ok [eb]], ttl⟩ :
        Vault MemState).refresh ⟨st, lr⟩ now).2 = none ∧
    Memory.unscoped.get
        ((⟨Memory.unscoped.store, [.ok [ea], .ok [eb]], ttl⟩ :
          Vault MemState).refresh ⟨st, lr⟩ now).1.store k =
      .ok { eb with createdAt := now } ∧
    ((⟨Memory.unscoped.store, [.ok [ea], .ok [eb]], ttl⟩ :
        Vault MemState).refresh ⟨st, lr⟩ now).1.lastRefresh = some now := by
  refine ⟨?_, ?_, ?_⟩ <;>
    simp [Vault.refresh, refreshLoop, setAll, Memory.store, Memory.set,
      Memory.get, hka, hkb]

/-- C6 witness: sources A and B both supplying `"k"` with different values
and timestamps leave the store holding B's value stamped with the
refresh time 9. -/
theorem C6_refresh_order_overwrite_witness :
    ((⟨Memory.unscoped.store,
        [.ok [⟨"k", "fromA", 1, "A"⟩], .ok [⟨"k", "fromB", 2, "B"⟩]], 0⟩ :
      Vault MemState).refresh ⟨MemState.empty, none⟩ 9).2 = none ∧
    Memory.unscoped.get
        ((⟨Memory.unscoped.store,
            [.ok [⟨"k", "fromA", 1, "A"⟩], .ok [⟨"k", "fromB", 2, "B"⟩]], 0⟩ :
          Vault MemState).refresh ⟨MemState.empty, none⟩ 9).1.store "k" =
      .ok ⟨"k", "fromB", 9, "B"⟩ ∧
    ((⟨Memory.unscoped.store,
        [.ok [⟨"k", "fromA", 1, "A"⟩], .ok [⟨"k", "fromB", 2, "B"⟩]], 0⟩ :
      Vault MemState).refresh ⟨MemState.empty, none⟩ 9).1.lastRefresh = some 9 :=
  C6_refresh_order_overwrite MemState.empty none 9 0
    ⟨"k", "fromA", 1, "A"⟩ ⟨"k", "fromB", 2, "B"⟩ "k" rfl rfl

/-! ## Claims about namespace scoping -/

/-- Appending the same namespace separator and key is injective in the
namespace: two scoped physical keys built from the same key coincide
exactly when the namespaces do. -/
theorem scopedKey_eq_iff (A B k : String) :
    ((A ++ "/") ++ k = (B ++ "/") ++ k) ↔ A = B := by
  constructor
  · intro h
    have hd := congrArg String.data h
    rw [String.data_append, String.data_append, String.data_append,
      String.data_append] at hd
    have h2 := List.append_cancel_right hd
    have h3 := List.append_cancel_right h2
    exact String.ext h3
  · intro h
    rw [h]

/-- A key is never equal to its own scoping under a namespace (the scoped
physical key is strictly longer). -/
theorem scopedKey_ne_key (A k : String) : k ≠ (A ++ "/") ++ k := by
  intro h
  have hl := congrArg String.length h
  rw [String.length_append, String.length_append] at hl
  have h1 : ("/" : String).length = 1 := rfl
  omega

/-- C8: over one shared memory backing, for distinct namespaces A and B
and any key `k`, a write of `k` through the A-scoped view is invisible
to the B-scoped view and to the unscoped store (both report
`NotFound`), while the A-scoped view reads back exactly the written
entry. -/
theorem C8_namespace_isolation (A B k : String) (e : Entry)
    (hAB : A ≠ B) (hk : e.key = k) :
    (Memory.unscoped.withNamespace B).get
        ((Memory.unscoped.withNamespace A).set MemState.empty e) k =
      .error .notFound ∧
    Memory.unscoped.get
        ((Memory.unscoped.withNamespace A).set MemState.empty e) k =
      .error .notFound ∧
    (Memory.unscoped.withNamespace A).get
        ((Memory.unscoped.withNamespace A).set MemState.empty e) k = .ok e := by
  refine ⟨?_, ?_, ?_⟩
  · have hne : ¬((B ++ "/") ++ k = (A ++ "/") ++ k) := fun h =>
      hAB (((scopedKey_eq_iff B A k).mp h).symm)
    simp [Memory.get, Memory.set, Memory.withNamespace, Memory.unscoped,
      MemState.empty, hk, hne]
  · have hne := scopedKey_ne_key A k
    simp [Memory.get, Memory.set, Memory.withNamespace, Memory.unscoped,
      MemState.empty, hk, hne]
  · simp [Memory.get, Memory.set, Memory.withNamespace, Memory.unscoped,
      MemState.empty, hk]

/-- C8 witness: with namespaces `"a"` and `"b"` and key `"k"`, the write
through `"a"` is read back only through `"a"`. -/
theorem C8_namespace_isolation_witness :
    (Memory.unscoped.withNamespace "b").get
        ((Memory.unscoped.withNamespace "a").set MemState.empty
          ⟨"k", "v", 0, "s"⟩) "k" = .error .notFound ∧
    Memory.unscoped.get
        ((Memory.unscoped.withNamespace "a").set MemState.empty
          ⟨"k", "v", 0, "s"⟩) "k" = .error .notFound ∧
    (Memory.unscoped.withNamespace "a").get
        ((Memory.unscoped.withNamespace "a").set MemState.empty
          ⟨"k", "v", 0, "s"⟩) "k" = .ok ⟨"k", "v", 0, "s"⟩ :=
  C8_namespace_isolation "a" "b" "k" ⟨"k", "v", 0, "s"⟩ (by decide) rfl

end VaultModel
